import Mathlib

/-!
# Verification of the Luxury Fashion Store checkout engine

Shallow embedding of the checkout logic of `src/main.py` (FastAPI endpoint
`create_checkout`) together with the pydantic data model of `src/schemas.py`.

Modelling choices:
* A MongoDB product document is a record of optional fields (`none` = field
  absent from the document); `dict.get(key, default)` becomes `Option.getD`.
* The product collection is an association list keyed by the string id;
  `find_one` takes the first matching entry, `update_one` updates the first
  matching entry, exactly as MongoDB does for a single-key filter.
* Python `float` prices are embedded as rationals; Python's `round` (banker's
  rounding, round-half-to-even) is `pyRound` below.
* A BSON ObjectId is constructible from a string exactly when the string is a
  24-character hexadecimal string (`isValidObjectId`).
* `HTTPException` and the pydantic `ValidationError` raised when an
  `OrderItem`/`Order` field constraint (`quantity ≥ 1`, `unit_amount ≥ 0`,
  `subtotal ≥ 0`) fails are both modelled as values of `CheckoutErr`; FastAPI
  maps an uncaught `ValidationError` to an HTTP 500 response.
-/

/-- A stored product document.  Every field may be absent (`none`), mirroring a
raw MongoDB document; `images` absent and `images` empty are identified, which
matches the code's `prod.get("images") or []`. -/
structure ProductDoc where
  title : Option String
  description : Option String
  price : Option ℚ
  category : Option String
  images : List String
  sku : Option String
  in_stock : Option Bool
  stock_qty : Option ℤ
deriving DecidableEq, Repr

/-- A cart line of the checkout request body (`CartItem` in `src/main.py`):
`product_id: str`, `quantity: int` — note that the request model itself puts
no lower bound on `quantity`. -/
structure CartItem where
  product_id : String
  quantity : ℤ
deriving DecidableEq, Repr

/-- Snapshot of a product captured into an order (`OrderItem` in
`src/schemas.py`).  The pydantic constraints `unit_amount ≥ 0` and
`quantity ≥ 1` are enforced at construction time in `processItem`. -/
structure OrderItem where
  product_id : String
  title : String
  unit_amount : ℤ
  quantity : ℤ
  image : Option String
deriving DecidableEq, Repr

/-- A persisted order (`Order` in `src/schemas.py`): `currency` defaults to
`"usd"`, `status` defaults to `"pending"`. -/
structure OrderDoc where
  items : List OrderItem
  currency : String
  subtotal : ℤ
  status : String
  checkout_session_id : Option String
deriving DecidableEq, Repr

/-- The database state seen by the checkout endpoint: the `product` collection
and the `order` collection.  Order ids are modelled as insertion indices. -/
structure Store where
  products : List (String × ProductDoc)
  orders : List OrderDoc
deriving DecidableEq, Repr

/-- The JSON body of a successful checkout response. -/
structure CheckoutResp where
  order_id : Nat
  status : String
  subtotal : ℤ
  currency : String
deriving DecidableEq, Repr

/-- The failure modes of the checkout endpoint.  The first four are the
`HTTPException`s raised explicitly by `create_checkout` / `ensure_object_id`;
`validationError` is a pydantic `ValidationError` escaping from `OrderItem`
or `Order` construction (surfaced by FastAPI as HTTP 500). -/
inductive CheckoutErr where
  | emptyCart : CheckoutErr
  | invalidId : String → CheckoutErr
  | notFound : String → CheckoutErr
  | insufficientStock : String → CheckoutErr
  | validationError : CheckoutErr
deriving DecidableEq, Repr

/-- The HTTP status each failure mode is surfaced with. -/
def httpStatus : CheckoutErr → Nat
  | .emptyCart => 400
  | .invalidId _ => 400
  | .notFound _ => 404
  | .insufficientStock _ => 400
  | .validationError => 500

/-- Hexadecimal digit test, as accepted by `bson.ObjectId`. -/
def isHexChar (c : Char) : Bool :=
  c.isDigit || (97 ≤ c.toNat && c.toNat ≤ 102) || (65 ≤ c.toNat && c.toNat ≤ 70)

/-- `ensure_object_id` succeeds exactly on well-formed ObjectId strings:
24 hexadecimal characters. -/
def isValidObjectId (s : String) : Bool :=
  s.length == 24 && s.toList.all isHexChar

/-- Python's built-in `round` restricted to one argument: round half to even
(banker's rounding), embedded on rationals. -/
def pyRound (q : ℚ) : ℤ :=
  let n : ℤ := ⌊q⌋
  let r : ℚ := q - n
  if r < 1 / 2 then n
  else if 1 / 2 < r then n + 1
  else if n % 2 = 0 then n else n + 1

/-- `db["product"].find_one({"_id": pid})`: first entry of the collection with
the given id, if any. -/
def findDoc : List (String × ProductDoc) → String → Option ProductDoc
  | [], _ => none
  | (k, d) :: rest, pid => if k = pid then some d else findDoc rest pid

/-- `db["product"].update_one({"_id": pid}, ...)`: rewrite the first entry with
the given id, if any. -/
def updateFirst : List (String × ProductDoc) → String → (ProductDoc → ProductDoc) →
    List (String × ProductDoc)
  | [], _, _ => []
  | (k, d) :: rest, pid, f =>
    if k = pid then (k, f d) :: rest else (k, d) :: updateFirst rest pid f

/-- The `OrderItem(...)` snapshot built at `src/main.py:138` for a cart line
whose product document is `prod`. -/
def mkOrderItem (i : CartItem) (prod : ProductDoc) : OrderItem :=
  { product_id := i.product_id
    title := prod.title.getD "Product"
    unit_amount := pyRound (prod.price.getD 0 * 100)
    quantity := i.quantity
    image := prod.images.head? }

/-- One iteration of the validation loop of `create_checkout`
(`src/main.py:122-146`) for a single cart line: id well-formedness, product
lookup, stock check, trusted price computation, and the pydantic checks run by
the `OrderItem` constructor.  Returns the order item and the recorded pending
stock decrement. -/
def processItem (store : Store) (i : CartItem) :
    Except CheckoutErr (OrderItem × (String × ℤ)) :=
  if isValidObjectId i.product_id = false then
    .error (.invalidId i.product_id)
  else
    match findDoc store.products i.product_id with
    | none => .error (.notFound i.product_id)
    | some prod =>
      if prod.in_stock.getD true = false ∨ prod.stock_qty.getD 0 < i.quantity then
        .error (.insufficientStock (prod.title.getD "item"))
      else if i.quantity < 1 ∨ pyRound (prod.price.getD 0 * 100) < 0 then
        .error .validationError
      else
        .ok (mkOrderItem i prod, (i.product_id, i.quantity))

/-- The whole validation loop (`src/main.py:122-146`): order items, running
subtotal in cents, and the list of pending stock decrements, or the first
error raised. -/
def phase1 (store : Store) : List CartItem →
    Except CheckoutErr (List OrderItem × ℤ × List (String × ℤ))
  | [] => .ok ([], 0, [])
  | i :: rest =>
    match processItem store i with
    | .error e => .error e
    | .ok (oi, upd) =>
      match phase1 store rest with
      | .error e => .error e
      | .ok (ois, sub, upds) =>
        .ok (oi :: ois, oi.unit_amount * i.quantity + sub, upd :: upds)

/-- One pending stock decrement applied to the product collection
(`src/main.py:154-159`): `$inc stock_qty by -qty` (a `$inc` on an absent field
treats it as 0), then re-read the document and, if its stock is ≤ 0, `$set
in_stock to false`. -/
def applyStockUpdate (ps : List (String × ProductDoc)) (u : String × ℤ) :
    List (String × ProductDoc) :=
  let ps1 := updateFirst ps u.1 fun d => { d with stock_qty := some (d.stock_qty.getD 0 - u.2) }
  match findDoc ps1 u.1 with
  | none => ps1
  | some pdoc =>
    if pdoc.stock_qty.getD 0 ≤ 0 then
      updateFirst ps1 u.1 fun d => { d with in_stock := some false }
    else ps1

/-- The checkout endpoint `create_checkout` (`src/main.py:110-166`).  Returns
the response (or the error raised) together with the database state after the
call; every error path leaves the state untouched because the code raises
before any write. -/
def create_checkout (store : Store) (items : List CartItem) :
    Except CheckoutErr CheckoutResp × Store :=
  if items = [] then (.error .emptyCart, store)
  else
    match phase1 store items with
    | .error e => (.error e, store)
    | .ok (ois, sub, upds) =>
      if sub < 0 then (.error .validationError, store)
      else
        let order : OrderDoc :=
          { items := ois, currency := "usd", subtotal := sub
            status := "pending", checkout_session_id := none }
        let oid := store.orders.length
        let products2 := upds.foldl applyStockUpdate store.products
        (.ok { order_id := oid, status := "confirmed"
               subtotal := order.subtotal, currency := order.currency },
         { products := products2, orders := store.orders ++ [order] })

/-- Classification of a single cart line against a database state, read off
the validation conditions of `src/main.py:123-128`: the error the line would
raise, or `none` if it passes the explicit validation (the pydantic
`quantity ≥ 1` check is deliberately not part of this predicate — it is the
spec's taxonomy of *validation* failures). -/
def classify (store : Store) (i : CartItem) : Option CheckoutErr :=
  if isValidObjectId i.product_id = false then some (.invalidId i.product_id)
  else
    match findDoc store.products i.product_id with
    | none => some (.notFound i.product_id)
    | some prod =>
      if prod.in_stock.getD true = false ∨ prod.stock_qty.getD 0 < i.quantity then
        some (.insufficientStock (prod.title.getD "item"))
      else none

/-- The stored price of a product, with the `prod.get("price", 0)` default;
0 for an absent product (only used under a hypothesis that the product
exists). -/
def priceOf (ps : List (String × ProductDoc)) (pid : String) : ℚ :=
  match findDoc ps pid with
  | some prod => prod.price.getD 0
  | none => 0

/-- The stored stock quantity of a product, with the `prod.get("stock_qty", 0)`
default; 0 for an absent product. -/
def stockOf (ps : List (String × ProductDoc)) (pid : String) : ℤ :=
  match findDoc ps pid with
  | some prod => prod.stock_qty.getD 0
  | none => 0

/-- Total quantity a cart requests of one product id. -/
def cartQty (items : List CartItem) (pid : String) : ℤ :=
  ((items.filter fun i => i.product_id = pid).map CartItem.quantity).sum

/-! ## Basic lemmas about the embedded primitives -/

theorem pyRound_intCast (n : ℤ) : pyRound (n : ℚ) = n := by
  unfold pyRound
  norm_num

theorem pyRound_nonneg {q : ℚ} (h : 0 ≤ q) : 0 ≤ pyRound q := by
  have hf : (0 : ℤ) ≤ ⌊q⌋ := Int.le_floor.mpr (by exact_mod_cast h)
  unfold pyRound
  dsimp only
  split
  · exact hf
  · split
    · omega
    · split <;> omega

theorem pyRound_int_add_half (n : ℤ) :
    pyRound ((n : ℚ) + 1 / 2) = if n % 2 = 0 then n else n + 1 := by
  have hfl : ⌊(n : ℚ) + 1 / 2⌋ = n := by
    rw [Int.floor_int_add]
    norm_num
  unfold pyRound
  dsimp only
  rw [hfl]
  have hr : ((n : ℚ) + 1 / 2) - (n : ℚ) = 1 / 2 := by ring
  rw [hr]
  norm_num

theorem findDoc_updateFirst_self (ps : List (String × ProductDoc)) (pid : String)
    (f : ProductDoc → ProductDoc) :
    findDoc (updateFirst ps pid f) pid = (findDoc ps pid).map f := by
  induction ps with
  | nil => rfl
  | cons kd rest ih =>
    obtain ⟨k, d⟩ := kd
    by_cases hk : k = pid
    · simp [findDoc, updateFirst, hk]
    · simp [findDoc, updateFirst, hk, ih]

theorem findDoc_updateFirst_ne (ps : List (String × ProductDoc)) {pid pid' : String}
    (f : ProductDoc → ProductDoc) (h : pid' ≠ pid) :
    findDoc (updateFirst ps pid f) pid' = findDoc ps pid' := by
  induction ps with
  | nil => rfl
  | cons kd rest ih =>
    obtain ⟨k, d⟩ := kd
    by_cases hk : k = pid
    · subst hk
      simp [findDoc, updateFirst, Ne.symm h]
    · by_cases hk' : k = pid'
      · subst hk'
        simp [findDoc, updateFirst, hk]
      · simp [findDoc, updateFirst, hk, hk', ih]

theorem findDoc_mem {ps : List (String × ProductDoc)} {pid : String} {d : ProductDoc}
    (h : findDoc ps pid = some d) : (pid, d) ∈ ps := by
  induction ps with
  | nil => simp [findDoc] at h
  | cons kd rest ih =>
    obtain ⟨k, d'⟩ := kd
    by_cases hk : k = pid
    · subst hk
      simp [findDoc] at h
      subst h
      exact List.mem_cons_self _ _
    · simp [findDoc, hk] at h
      exact List.mem_cons_of_mem _ (ih h)

/-- Inversion of a successful validation of one cart line: every check of
`src/main.py:123-146` passed and the result is the documented snapshot. -/
theorem processItem_ok_elim {store : Store} {i : CartItem} {r : OrderItem × (String × ℤ)}
    (h : processItem store i = .ok r) :
    isValidObjectId i.product_id = true ∧
    ∃ prod, findDoc store.products i.product_id = some prod ∧
      prod.in_stock.getD true = true ∧
      i.quantity ≤ prod.stock_qty.getD 0 ∧
      1 ≤ i.quantity ∧
      0 ≤ pyRound (prod.price.getD 0 * 100) ∧
      r = (mkOrderItem i prod, (i.product_id, i.quantity)) := by
  unfold processItem at h
  split at h
  · exact absurd h (by simp)
  · rename_i hv
    split at h
    · exact absurd h (by simp)
    · rename_i prod hf
      split at h
      · exact absurd h (by simp)
      · split at h
        · exact absurd h (by simp)
        · rename_i hstock hqty
          push_neg at hstock hqty
          simp only [Except.ok.injEq] at h
          refine ⟨by simpa using hv, prod, hf, ?_, ?_, ?_, ?_, h.symm⟩
          · simpa using hstock.1
          · exact hstock.2
          · omega
          · omega

/-- Converse construction: if every check passes, the line validates to its
snapshot. -/
theorem processItem_ok_intro {store : Store} {i : CartItem} {prod : ProductDoc}
    (hv : isValidObjectId i.product_id = true)
    (hf : findDoc store.products i.product_id = some prod)
    (hin : prod.in_stock.getD true = true)
    (hs : i.quantity ≤ prod.stock_qty.getD 0)
    (hq : 1 ≤ i.quantity)
    (hu : 0 ≤ pyRound (prod.price.getD 0 * 100)) :
    processItem store i = .ok (mkOrderItem i prod, (i.product_id, i.quantity)) := by
  unfold processItem
  rw [hv]
  simp only [Bool.true_eq_false, if_false, hf]
  rw [if_neg (by simp [hin]; omega), if_neg (by omega)]

/-- A line that `classify` rejects makes `processItem` raise exactly that
error. -/
theorem processItem_error_of_classify {store : Store} {i : CartItem} {e : CheckoutErr}
    (h : classify store i = some e) : processItem store i = .error e := by
  unfold classify at h
  unfold processItem
  split at h
  · rename_i hv
    rw [if_pos hv]
    simp only [Option.some.injEq] at h
    rw [h]
  · rename_i hv
    rw [if_neg hv]
    split at h
    · simp only [Option.some.injEq] at h
      rw [h]
    · rename_i prod hf
      split at h
      · rename_i hcond
        rw [if_pos hcond]
        simp only [Option.some.injEq] at h
        rw [h]
      · exact absurd h (by simp)

/-- A line that validates successfully is accepted by `classify`. -/
theorem classify_none_of_ok {store : Store} {i : CartItem} {r : OrderItem × (String × ℤ)}
    (h : processItem store i = .ok r) : classify store i = none := by
  obtain ⟨hv, prod, hf, hin, hs, _, _, _⟩ := processItem_ok_elim h
  unfold classify
  rw [if_neg (by simp [hv]), hf]
  have hns : ¬(prod.in_stock.getD true = false ∨ prod.stock_qty.getD 0 < i.quantity) := by
    simp [hin]
    omega
  simp [hns]

/-- If some cart line fails validation against the (unmodified) database
state, the validation loop raises an error: the loop never mutates state, so
every line is checked against the same snapshot. -/
theorem phase1_error_of_classify {store : Store} {items : List CartItem}
    (h : ∃ i ∈ items, (classify store i).isSome) :
    ∃ e, phase1 store items = .error e := by
  induction items with
  | nil => simp at h
  | cons i rest ih =>
    rcases h with ⟨j, hj, hcj⟩
    cases hpi : processItem store i with
    | error e => exact ⟨e, by simp [phase1, hpi]⟩
    | ok r =>
      obtain ⟨oi, upd⟩ := r
      rcases List.mem_cons.mp hj with rfl | hjr
      · rw [classify_none_of_ok hpi] at hcj
        simp at hcj
      · obtain ⟨e, he⟩ := ih ⟨j, hjr, hcj⟩
        exact ⟨e, by simp [phase1, hpi, he]⟩

/-- If some cart line has quantity < 1 the validation loop raises an error
(if nothing else, the pydantic `quantity ≥ 1` bound on `OrderItem`). -/
theorem phase1_error_of_qty {store : Store} {items : List CartItem}
    (h : ∃ i ∈ items, i.quantity < 1) :
    ∃ e, phase1 store items = .error e := by
  induction items with
  | nil => simp at h
  | cons i rest ih =>
    rcases h with ⟨j, hj, hqj⟩
    cases hpi : processItem store i with
    | error e => exact ⟨e, by simp [phase1, hpi]⟩
    | ok r =>
      obtain ⟨oi, upd⟩ := r
      rcases List.mem_cons.mp hj with rfl | hjr
      · obtain ⟨-, prod, -, -, -, hq, -, -⟩ := processItem_ok_elim hpi
        exact absurd hqj (by omega)
      · obtain ⟨e, he⟩ := ih ⟨j, hjr, hqj⟩
        exact ⟨e, by simp [phase1, hpi, he]⟩

/-- Full characterisation of a successful validation pass: the subtotal is the
sum of `round(stored price × 100) × quantity` over the cart, the recorded
stock decrements are exactly the cart lines, every order item's unit price is
recomputed from the stored price, and every line passed all checks. -/
theorem phase1_ok_spec {store : Store} {items : List CartItem}
    {ois : List OrderItem} {sub : ℤ} {upds : List (String × ℤ)}
    (h : phase1 store items = .ok (ois, sub, upds)) :
    sub = (items.map fun i => pyRound (priceOf store.products i.product_id * 100) * i.quantity).sum ∧
    upds = items.map (fun i => (i.product_id, i.quantity)) ∧
    (∀ oi ∈ ois, oi.unit_amount = pyRound (priceOf store.products oi.product_id * 100)) ∧
    (∀ i ∈ items, classify store i = none ∧ 1 ≤ i.quantity ∧
      (findDoc store.products i.product_id).isSome) ∧
    0 ≤ sub := by
  induction items generalizing ois sub upds with
  | nil =>
    simp [phase1] at h
    obtain ⟨h1, h2, h3⟩ := h
    subst h1; subst h2; subst h3
    simp
  | cons i rest ih =>
    rw [phase1] at h
    cases hpi : processItem store i with
    | error e => rw [hpi] at h; exact absurd h (by simp)
    | ok r =>
      obtain ⟨oi, upd⟩ := r
      rw [hpi] at h
      cases hp1 : phase1 store rest with
      | error e => rw [hp1] at h; exact absurd h (by simp)
      | ok t =>
        obtain ⟨ois', sub', upds'⟩ := t
        rw [hp1] at h
        simp only [Except.ok.injEq, Prod.mk.injEq] at h
        obtain ⟨hois, hsub, hupds⟩ := h
        obtain ⟨hv, prod, hf, hin, hs, hq, hu, hr⟩ := processItem_ok_elim hpi
        simp only [Prod.mk.injEq] at hr
        obtain ⟨hoi, hupd⟩ := hr
        obtain ⟨ih1, ih2, ih3, ih4, ih5⟩ := ih hp1
        have hprice : priceOf store.products i.product_id = prod.price.getD 0 := by
          unfold priceOf
          rw [hf]
        constructor
        · rw [← hsub, ih1, hoi]
          simp [mkOrderItem, hprice]
        constructor
        · rw [← hupds, ih2, hupd]
          simp
        constructor
        · intro x hx
          rw [← hois] at hx
          rcases List.mem_cons.mp hx with rfl | hxr
          · rw [hoi]
            simp [mkOrderItem, hprice]
          · exact ih3 x hxr
        constructor
        · intro j hj
          rcases List.mem_cons.mp hj with rfl | hjr
          · exact ⟨classify_none_of_ok hpi, hq, by rw [hf]; rfl⟩
          · exact ih4 j hjr
        · rw [← hsub, hoi]
          simp only [mkOrderItem]
          have : 0 ≤ pyRound (prod.price.getD 0 * 100) * i.quantity :=
            mul_nonneg hu (by omega)
          omega

/-- Inversion of a successful checkout call: the cart was non-empty, the
validation pass succeeded, the response is built from the computed subtotal,
one order was appended, and the stock updates were applied in order. -/
theorem create_checkout_ok_elim {store : Store} {items : List CartItem}
    {resp : CheckoutResp} {st' : Store}
    (h : create_checkout store items = (.ok resp, st')) :
    items ≠ [] ∧ ∃ ois sub upds, phase1 store items = .ok (ois, sub, upds) ∧
      resp = { order_id := store.orders.length, status := "confirmed"
               subtotal := sub, currency := "usd" } ∧
      st'.orders = store.orders ++
        [{ items := ois, currency := "usd", subtotal := sub
           status := "pending", checkout_session_id := none }] ∧
      st'.products = upds.foldl applyStockUpdate store.products := by
  unfold create_checkout at h
  split at h
  · exact absurd h (by simp)
  · rename_i hne
    cases hp1 : phase1 store items with
    | error e =>
      rw [hp1] at h
      exact absurd h (by simp)
    | ok t =>
      obtain ⟨ois, sub, upds⟩ := t
      rw [hp1] at h
      simp only at h
      by_cases hsub : sub < 0
      · rw [if_pos hsub] at h
        exact absurd h (by simp)
      · rw [if_neg hsub] at h
        simp only [Prod.mk.injEq, Except.ok.injEq] at h
        obtain ⟨hresp, hst⟩ := h
        refine ⟨hne, ois, sub, upds, rfl, hresp.symm, ?_, ?_⟩
        · rw [← hst]
        · rw [← hst]

/-- Any validation failure (empty cart, malformed id, missing product,
insufficient stock) makes the endpoint raise before any write: the database
state is returned unchanged. -/
theorem create_checkout_error_of_classify {store : Store} {items : List CartItem}
    (h : items = [] ∨ ∃ i ∈ items, (classify store i).isSome) :
    ∃ e, create_checkout store items = (.error e, store) := by
  rcases h with rfl | hex
  · exact ⟨.emptyCart, by simp [create_checkout]⟩
  · have hne : items ≠ [] := by
      rcases hex with ⟨i, hi, -⟩
      exact List.ne_nil_of_mem hi
    obtain ⟨e, he⟩ := phase1_error_of_classify hex
    refine ⟨e, ?_⟩
    unfold create_checkout
    rw [if_neg hne, he]

theorem updateFirst_of_absent {ps : List (String × ProductDoc)} {pid : String}
    (f : ProductDoc → ProductDoc) (h : findDoc ps pid = none) :
    updateFirst ps pid f = ps := by
  induction ps with
  | nil => rfl
  | cons kd rest ih =>
    obtain ⟨k, d⟩ := kd
    by_cases hk : k = pid
    · simp [findDoc, hk] at h
    · simp [findDoc, hk] at h
      simp [updateFirst, hk, ih h]

/-- Effect of one stock update on its own product: stock is decremented (an
absent field counts as 0), and `in_stock` is forced to `false` exactly when
the decremented stock is ≤ 0; no other field changes. -/
theorem applyStockUpdate_self {ps : List (String × ProductDoc)} {pid : String}
    {d : ProductDoc} (q : ℤ) (hf : findDoc ps pid = some d) :
    findDoc (applyStockUpdate ps (pid, q)) pid =
      some { d with stock_qty := some (d.stock_qty.getD 0 - q)
                    in_stock := if d.stock_qty.getD 0 - q ≤ 0 then some false
                                else d.in_stock } := by
  have h1 : findDoc (updateFirst ps pid fun x =>
      { x with stock_qty := some (x.stock_qty.getD 0 - q) }) pid =
      some { d with stock_qty := some (d.stock_qty.getD 0 - q) } := by
    rw [findDoc_updateFirst_self, hf]
    rfl
  unfold applyStockUpdate
  simp only [h1, Option.getD_some]
  by_cases hz : d.stock_qty.getD 0 - q ≤ 0
  · rw [if_pos hz, findDoc_updateFirst_self, h1, Option.map_some', if_pos hz]
  · rw [if_neg hz, if_neg hz]
    exact h1

/-- A stock update for one product does not touch any other product. -/
theorem applyStockUpdate_ne {ps : List (String × ProductDoc)} {pid' : String}
    (u : String × ℤ) (h : pid' ≠ u.1) :
    findDoc (applyStockUpdate ps u) pid' = findDoc ps pid' := by
  unfold applyStockUpdate
  dsimp only
  split
  · exact findDoc_updateFirst_ne ps _ h
  · split
    · rw [findDoc_updateFirst_ne _ _ h, findDoc_updateFirst_ne _ _ h]
    · exact findDoc_updateFirst_ne ps _ h

/-- A stock update whose product id is absent is a no-op (`update_one` matches
nothing and `find_one` returns `None`). -/
theorem applyStockUpdate_absent {ps : List (String × ProductDoc)} (u : String × ℤ)
    (h : findDoc ps u.1 = none) : applyStockUpdate ps u = ps := by
  unfold applyStockUpdate
  rw [updateFirst_of_absent _ h]
  simp only [h]

theorem applyStockUpdate_isSome {ps : List (String × ProductDoc)} {pid : String}
    (u : String × ℤ) (h : (findDoc ps pid).isSome) :
    (findDoc (applyStockUpdate ps u) pid).isSome := by
  by_cases he : pid = u.1
  · subst he
    obtain ⟨d, hd⟩ := Option.isSome_iff_exists.mp h
    obtain ⟨pid', q⟩ := u
    rw [applyStockUpdate_self q hd]
    rfl
  · rw [applyStockUpdate_ne u he]
    exact h

theorem stockOf_applyStockUpdate_self {ps : List (String × ProductDoc)} {pid : String}
    (q : ℤ) (h : (findDoc ps pid).isSome) :
    stockOf (applyStockUpdate ps (pid, q)) pid = stockOf ps pid - q := by
  obtain ⟨d, hd⟩ := Option.isSome_iff_exists.mp h
  unfold stockOf
  rw [applyStockUpdate_self q hd, hd]
  rfl

theorem stockOf_applyStockUpdate_ne {ps : List (String × ProductDoc)} {pid' : String}
    (u : String × ℤ) (h : pid' ≠ u.1) :
    stockOf (applyStockUpdate ps u) pid' = stockOf ps pid' := by
  unfold stockOf
  rw [applyStockUpdate_ne u h]

/-- Cumulative effect of the stock-application pass on one product's stock:
the sum of the recorded quantities for that product is subtracted. -/
theorem stockOf_foldl_applyStockUpdate (L : List (String × ℤ))
    (ps : List (String × ProductDoc)) (pid : String) (h : (findDoc ps pid).isSome) :
    stockOf (L.foldl applyStockUpdate ps) pid =
      stockOf ps pid - ((L.filter fun u => u.1 = pid).map Prod.snd).sum := by
  induction L generalizing ps with
  | nil => simp
  | cons u rest ih =>
    rw [List.foldl_cons]
    by_cases he : u.1 = pid
    · obtain ⟨pid', q⟩ := u
      simp only at he
      subst he
      rw [ih _ (applyStockUpdate_isSome _ h), stockOf_applyStockUpdate_self q h]
      simp
      ring
    · rw [ih _ (applyStockUpdate_isSome _ h), stockOf_applyStockUpdate_ne u (Ne.symm (by simpa using he))]
      have : (List.filter (fun u => u.1 = pid) (u :: rest)) = List.filter (fun u => u.1 = pid) rest := by
        simp [List.filter_cons, he]
      rw [this]

/-- `classify` rejects a line exactly under the conditions spelled out at
`src/main.py:123-128`: malformed id, unknown product, or availability/stock
failure with defaults `in_stock=True`, `stock_qty=0`. -/
theorem classify_isSome_iff {store : Store} {i : CartItem} :
    (classify store i).isSome = true ↔
      isValidObjectId i.product_id = false ∨
      findDoc store.products i.product_id = none ∨
      ∃ prod, findDoc store.products i.product_id = some prod ∧
        (prod.in_stock.getD true = false ∨ prod.stock_qty.getD 0 < i.quantity) := by
  unfold classify
  split
  · rename_i hv
    simp [hv]
  · rename_i hv
    split
    · rename_i hf
      simp [hf]
    · rename_i prod hf
      split
      · rename_i hcond
        simp [hf, hv, hcond]
      · rename_i hcond
        simp [hf, hv, hcond]

/-- A line that `classify` accepts and whose quantity is ≥ 1 validates
successfully, provided stored prices are non-negative. -/
theorem processItem_ok_of_classify_none {store : Store} {i : CartItem}
    (hc : classify store i = none) (hq : 1 ≤ i.quantity)
    (hp : ∀ kv ∈ store.products, 0 ≤ kv.2.price.getD 0) :
    ∃ r, processItem store i = .ok r := by
  unfold classify at hc
  split at hc
  · exact absurd hc (by simp)
  · rename_i hv
    split at hc
    · exact absurd hc (by simp)
    · rename_i prod hf
      split at hc
      · exact absurd hc (by simp)
      · rename_i hcond
        push_neg at hcond
        have hpr : 0 ≤ prod.price.getD 0 := hp (i.product_id, prod) (findDoc_mem hf)
        exact ⟨_, processItem_ok_intro (by simpa using hv) hf (by simpa using hcond.1)
          hcond.2 hq (pyRound_nonneg (mul_nonneg hpr (by norm_num)))⟩

/-- For carts whose quantities are all ≥ 1 (so the pydantic bound cannot fire)
and stores with non-negative prices, the validation loop fails with `e` exactly
when `e` is the classification of the first failing line. -/
theorem phase1_error_iff {store : Store}
    (hp : ∀ kv ∈ store.products, 0 ≤ kv.2.price.getD 0) :
    ∀ (items : List CartItem), (∀ i ∈ items, 1 ≤ i.quantity) →
      ∀ e, (phase1 store items = .error e ↔
        List.findSome? (classify store) items = some e) := by
  intro items
  induction items with
  | nil =>
    intro _ e
    simp [phase1, List.findSome?]
  | cons i rest ih =>
    intro hq e
    have hqr : ∀ j ∈ rest, 1 ≤ j.quantity := fun j hj => hq j (List.mem_cons_of_mem _ hj)
    cases hc : classify store i with
    | some e0 =>
      rw [phase1, processItem_error_of_classify hc]
      simp [List.findSome?, hc]
    | none =>
      obtain ⟨r, hr⟩ := processItem_ok_of_classify_none hc (hq i (List.mem_cons_self _ _)) hp
      obtain ⟨oi, upd⟩ := r
      rw [phase1, hr]
      have hfs : List.findSome? (classify store) (i :: rest) =
          List.findSome? (classify store) rest := by
        simp [List.findSome?, hc]
      rw [hfs]
      cases hp1 : phase1 store rest with
      | error e1 =>
        constructor
        · intro hee
          simp only [Except.error.injEq] at hee
          exact (ih hqr e).mp (by rw [hp1, hee])
        · intro hee
          have := (ih hqr e).mpr hee
          rw [hp1] at this
          simp only [Except.error.injEq] at this
          rw [this]
      | ok t =>
        obtain ⟨ois, sub, upds⟩ := t
        constructor
        · intro hee
          exact absurd hee (by simp)
        · intro hee
          have := (ih hqr e).mpr hee
          rw [hp1] at this
          exact absurd this (by simp)

/-- The quantities recorded for one product by the stock-update list are
exactly the cart's quantities for that product. -/
theorem cartQty_map_filter (items : List CartItem) (pid : String) :
    (((items.map fun i => (i.product_id, i.quantity)).filter fun u => u.1 = pid).map
        Prod.snd).sum = cartQty items pid := by
  induction items with
  | nil => rfl
  | cons i rest ih =>
    simp only [cartQty, List.map_cons, List.filter_cons] at ih ⊢
    by_cases hi : i.product_id = pid <;> simp [hi, ih]

/-! ## Claim theorems -/

/-- **C1.** For every cart that passes validation, the checkout response's
subtotal equals the sum over cart lines of `round(price_i*100)*quantity_i`
computed from the stored product prices (the cart contributes only product
ids and quantities — `priceOf` reads the catalog, never the request), and
this same subtotal is the one stored in the persisted Order document. -/
theorem c1_subtotal_trusted {store : Store} {items : List CartItem}
    {resp : CheckoutResp} {st' : Store}
    (h : create_checkout store items = (.ok resp, st')) :
    resp.subtotal =
      (items.map fun i =>
        pyRound (priceOf store.products i.product_id * 100) * i.quantity).sum ∧
    ∃ o : OrderDoc, st'.orders = store.orders ++ [o] ∧ o.subtotal = resp.subtotal := by
  obtain ⟨hne, ois, sub, upds, hp1, hresp, hord, hprod⟩ := create_checkout_ok_elim h
  obtain ⟨hsub, -, -, -, -⟩ := phase1_ok_spec hp1
  subst hresp
  exact ⟨hsub, _, hord, rfl⟩

/-- **C2.** If the cart is empty or any line fails validation (malformed
product id, product not found, or insufficient stock — all judged against the
pre-call catalog, which the validation pass never mutates), checkout raises an
error and returns the database state unchanged: no Order is persisted and no
product is touched. -/
theorem c2_validation_all_or_nothing {store : Store} {items : List CartItem}
    (h : items = [] ∨ ∃ i ∈ items,
      isValidObjectId i.product_id = false ∨
      findDoc store.products i.product_id = none ∨
      ∃ prod, findDoc store.products i.product_id = some prod ∧
        (prod.in_stock.getD true = false ∨ prod.stock_qty.getD 0 < i.quantity)) :
    ∃ e, create_checkout store items = (.error e, store) := by
  refine create_checkout_error_of_classify ?_
  rcases h with rfl | ⟨i, hi, hx⟩
  · exact Or.inl rfl
  · exact Or.inr ⟨i, hi, classify_isSome_iff.mpr hx⟩

/-- **C4.** Every cart containing a line with quantity < 1 is rejected (the
`OrderItem` pydantic bound `quantity ≥ 1` fires if no earlier check does), and
the database state is returned unchanged: no Order, no stock change. -/
theorem c4_quantity_lower_bound {store : Store} {items : List CartItem}
    (h : ∃ i ∈ items, i.quantity < 1) :
    ∃ e, create_checkout store items = (.error e, store) := by
  have hne : items ≠ [] := by
    rcases h with ⟨i, hi, -⟩
    exact List.ne_nil_of_mem hi
  obtain ⟨e, he⟩ := phase1_error_of_qty h
  refine ⟨e, ?_⟩
  unfold create_checkout
  rw [if_neg hne, he]

/-- **C7.** On every successful checkout the HTTP response says
`status = "confirmed"` while the Order written to storage carries the default
`status = "pending"`; the checkout flow only appends that order and never
rewrites it. -/
theorem c7_status_drift {store : Store} {items : List CartItem}
    {resp : CheckoutResp} {st' : Store}
    (h : create_checkout store items = (.ok resp, st')) :
    resp.status = "confirmed" ∧
    ∃ o : OrderDoc, st'.orders = store.orders ++ [o] ∧ o.status = "pending" := by
  obtain ⟨hne, ois, sub, upds, hp1, hresp, hord, hprod⟩ := create_checkout_ok_elim h
  subst hresp
  exact ⟨rfl, _, hord, rfl⟩

/-- **C5.** Successful checkout of a single line (quantity `Q`, `1 ≤ Q ≤ S`)
against a product with `stock_qty = S` and `in_stock = true` leaves the
product with `stock_qty = S − Q`; `in_stock` becomes `false` exactly when
`S − Q = 0` and stays `true` otherwise; no other field of the product and no
other product changes. -/
theorem c5_stock_decrement {store : Store} {pid : String} {prod : ProductDoc}
    {S Q : ℤ}
    (hv : isValidObjectId pid = true)
    (hf : findDoc store.products pid = some prod)
    (hin : prod.in_stock = some true)
    (hS : prod.stock_qty = some S)
    (hQ1 : 1 ≤ Q) (hQS : Q ≤ S)
    (hpr : 0 ≤ prod.price.getD 0) :
    ∃ resp st', create_checkout store [⟨pid, Q⟩] = (.ok resp, st') ∧
      findDoc st'.products pid =
        some { prod with stock_qty := some (S - Q)
                         in_stock := if S - Q = 0 then some false else some true } ∧
      ∀ pid', pid' ≠ pid → findDoc st'.products pid' = findDoc store.products pid' := by
  have hu : 0 ≤ pyRound (prod.price.getD 0 * 100) :=
    pyRound_nonneg (mul_nonneg hpr (by norm_num))
  have hpi : processItem store ⟨pid, Q⟩ = .ok (mkOrderItem ⟨pid, Q⟩ prod, (pid, Q)) :=
    processItem_ok_intro hv hf (by rw [hin]; rfl) (by rw [hS]; exact hQS) hQ1 hu
  have hp1 : phase1 store [⟨pid, Q⟩] =
      .ok ([mkOrderItem ⟨pid, Q⟩ prod],
           (mkOrderItem ⟨pid, Q⟩ prod).unit_amount * Q + 0, [(pid, Q)]) := by
    rw [phase1, hpi, phase1]
  have hu' : 0 ≤ (mkOrderItem ⟨pid, Q⟩ prod).unit_amount * Q + 0 := by
    have : 0 ≤ (mkOrderItem ⟨pid, Q⟩ prod).unit_amount := hu
    have := mul_nonneg this (show (0:ℤ) ≤ Q by omega)
    omega
  refine ⟨{ order_id := store.orders.length, status := "confirmed"
            subtotal := (mkOrderItem ⟨pid, Q⟩ prod).unit_amount * Q + 0, currency := "usd" },
          { products := List.foldl applyStockUpdate store.products [(pid, Q)]
            orders := store.orders ++
              [{ items := [mkOrderItem ⟨pid, Q⟩ prod], currency := "usd"
                 subtotal := (mkOrderItem ⟨pid, Q⟩ prod).unit_amount * Q + 0
                 status := "pending", checkout_session_id := none }] },
          ?_, ?_, ?_⟩
  · unfold create_checkout
    rw [if_neg (by simp), hp1]
    simp only
    rw [if_neg (not_lt.mpr hu')]
  · show findDoc (List.foldl applyStockUpdate store.products [(pid, Q)]) pid = _
    rw [List.foldl_cons, List.foldl_nil]
    rw [applyStockUpdate_self Q hf]
    rw [hS, hin]
    simp only [Option.getD_some]
    by_cases hz : S - Q = 0
    · rw [if_pos (by omega), if_pos hz]
    · rw [if_neg (by omega), if_neg hz]
  · intro pid' hne
    show findDoc (List.foldl applyStockUpdate store.products [(pid, Q)]) pid' = _
    rw [List.foldl_cons, List.foldl_nil]
    exact applyStockUpdate_ne _ hne

/-- **C9.** Checkout is not idempotent: when the same cart checks out
successfully twice in a row, the second call appends a second, distinct Order
document (a fresh order id) and decrements every referenced product's stock
again, for a total decrement of twice the cart quantity per product. -/
theorem c9_not_idempotent {store : Store} {items : List CartItem}
    {r1 r2 : CheckoutResp} {st1 st2 : Store}
    (h1 : create_checkout store items = (.ok r1, st1))
    (h2 : create_checkout st1 items = (.ok r2, st2)) :
    r1.order_id ≠ r2.order_id ∧
    st2.orders.length = store.orders.length + 2 ∧
    ∀ pid, (∃ i ∈ items, i.product_id = pid) →
      stockOf st2.products pid = stockOf store.products pid - 2 * cartQty items pid := by
  obtain ⟨hne1, ois1, sub1, upds1, hp11, hresp1, hord1, hprod1⟩ := create_checkout_ok_elim h1
  obtain ⟨hne2, ois2, sub2, upds2, hp12, hresp2, hord2, hprod2⟩ := create_checkout_ok_elim h2
  obtain ⟨-, hupds1, -, hall1, -⟩ := phase1_ok_spec hp11
  obtain ⟨-, hupds2, -, hall2, -⟩ := phase1_ok_spec hp12
  refine ⟨?_, ?_, ?_⟩
  · rw [hresp1, hresp2]
    show store.orders.length ≠ st1.orders.length
    rw [hord1]
    simp only [List.length_append, List.length_singleton]
    omega
  · rw [hord2, hord1]
    simp only [List.length_append, List.length_singleton]
  · rintro pid ⟨i, hi, hip⟩
    have hs1 : (findDoc store.products pid).isSome := by
      have := (hall1 i hi).2.2
      rwa [hip] at this
    have hs2 : (findDoc st1.products pid).isSome := by
      have := (hall2 i hi).2.2
      rwa [hip] at this
    have e1 : stockOf st1.products pid = stockOf store.products pid - cartQty items pid := by
      rw [hprod1, hupds1, stockOf_foldl_applyStockUpdate _ _ _ hs1, cartQty_map_filter]
    have e2 : stockOf st2.products pid = stockOf st1.products pid - cartQty items pid := by
      rw [hprod2, hupds2, stockOf_foldl_applyStockUpdate _ _ _ hs2, cartQty_map_filter]
    rw [e2, e1]
    ring

/-- **C8.** Every order item's unit price in minor units is
`round(stored price × 100)` with Python's `round`, i.e. round-half-to-even:
on a tie `n + 1/2` the result is the even one of `n`, `n+1` (`n` when `n` is
even, `n+1` when `n` is odd). -/
theorem c8_unit_price_rounding :
    (∀ (store : Store) (items : List CartItem) (resp : CheckoutResp) (st' : Store),
      create_checkout store items = (.ok resp, st') →
      ∀ o : OrderDoc, st'.orders = store.orders ++ [o] →
      ∀ oi ∈ o.items,
        oi.unit_amount = pyRound (priceOf store.products oi.product_id * 100)) ∧
    (∀ n : ℤ, pyRound ((n : ℚ) + 1 / 2) = if n % 2 = 0 then n else n + 1) := by
  constructor
  · intro store items resp st' h o ho oi hoi
    obtain ⟨hne, ois, sub, upds, hp1, hresp, hord, hprod⟩ := create_checkout_ok_elim h
    obtain ⟨-, -, hunit, -, -⟩ := phase1_ok_spec hp1
    have ho' : o = { items := ois, currency := "usd", subtotal := sub
                     status := "pending", checkout_session_id := none } := by
      have := ho.symm.trans hord
      have := List.append_cancel_left this
      simpa using this
    rw [ho'] at hoi
    exact hunit oi hoi
  · exact pyRound_int_add_half

/-- **C10.** Defaults substituted for absent document fields at the checkout
boundary: an absent `in_stock` counts as `true` (the line can succeed), an
absent `stock_qty` counts as 0 (any requested quantity ≥ 1 fails with
`InsufficientStock`), and an absent `price` counts as 0 (unit price 0,
contributing nothing to the subtotal). -/
theorem c10_missing_field_defaults :
    (∀ (store : Store) (pid : String) (prod : ProductDoc) (S Q : ℤ),
      isValidObjectId pid = true →
      findDoc store.products pid = some prod →
      prod.in_stock = none → prod.stock_qty = some S →
      1 ≤ Q → Q ≤ S → 0 ≤ prod.price.getD 0 →
      ∃ resp st', create_checkout store [⟨pid, Q⟩] = (.ok resp, st')) ∧
    (∀ (store : Store) (pid : String) (prod : ProductDoc) (Q : ℤ),
      isValidObjectId pid = true →
      findDoc store.products pid = some prod →
      prod.stock_qty = none → 1 ≤ Q →
      create_checkout store [⟨pid, Q⟩] =
        (.error (.insufficientStock (prod.title.getD "item")), store)) ∧
    (∀ (store : Store) (pid : String) (prod : ProductDoc) (S Q : ℤ),
      isValidObjectId pid = true →
      findDoc store.products pid = some prod →
      prod.price = none → prod.in_stock.getD true = true → prod.stock_qty = some S →
      1 ≤ Q → Q ≤ S →
      ∃ st', create_checkout store [⟨pid, Q⟩] =
        (.ok { order_id := store.orders.length, status := "confirmed"
               subtotal := 0, currency := "usd" }, st') ∧
        ∃ o, st'.orders = store.orders ++ [o] ∧ o.subtotal = 0 ∧
          ∀ oi ∈ o.items, oi.unit_amount = 0) := by
  refine ⟨?_, ?_, ?_⟩
  · intro store pid prod S Q hv hf hin hS hQ1 hQS hpr
    have hu : 0 ≤ pyRound (prod.price.getD 0 * 100) :=
      pyRound_nonneg (mul_nonneg hpr (by norm_num))
    have hpi : processItem store ⟨pid, Q⟩ = .ok (mkOrderItem ⟨pid, Q⟩ prod, (pid, Q)) :=
      processItem_ok_intro hv hf (by rw [hin]; rfl) (by rw [hS]; exact hQS) hQ1 hu
    have hp1 : phase1 store [⟨pid, Q⟩] =
        .ok ([mkOrderItem ⟨pid, Q⟩ prod],
             (mkOrderItem ⟨pid, Q⟩ prod).unit_amount * Q + 0, [(pid, Q)]) := by
      rw [phase1, hpi, phase1]
    have hu' : 0 ≤ (mkOrderItem ⟨pid, Q⟩ prod).unit_amount * Q + 0 := by
      have h0 : 0 ≤ (mkOrderItem ⟨pid, Q⟩ prod).unit_amount := hu
      have := mul_nonneg h0 (show (0:ℤ) ≤ Q by omega)
      omega
    refine ⟨{ order_id := store.orders.length, status := "confirmed"
              subtotal := (mkOrderItem ⟨pid, Q⟩ prod).unit_amount * Q + 0, currency := "usd" },
            { products := List.foldl applyStockUpdate store.products [(pid, Q)]
              orders := store.orders ++
                [{ items := [mkOrderItem ⟨pid, Q⟩ prod], currency := "usd"
                   subtotal := (mkOrderItem ⟨pid, Q⟩ prod).unit_amount * Q + 0
                   status := "pending", checkout_session_id := none }] }, ?_⟩
    unfold create_checkout
    rw [if_neg (by simp), hp1]
    simp only
    rw [if_neg (not_lt.mpr hu')]
  · intro store pid prod Q hv hf hS hQ1
    have hc : classify store ⟨pid, Q⟩ = some (.insufficientStock (prod.title.getD "item")) := by
      unfold classify
      rw [if_neg (by simp [hv]), hf]
      simp only
      rw [if_pos (show prod.in_stock.getD true = false ∨
          prod.stock_qty.getD 0 < (⟨pid, Q⟩ : CartItem).quantity by
        right
        rw [hS]
        simp only [Option.getD_none]
        omega)]
    have hpe := processItem_error_of_classify hc
    unfold create_checkout
    rw [if_neg (by simp), phase1, hpe]
  · intro store pid prod S Q hv hf hprice hin hS hQ1 hQS
    have hzero : pyRound (prod.price.getD 0 * 100) = 0 := by
      rw [hprice]
      have : ((0 : ℚ) : Option ℚ).getD 0 * 100 = ((0 : ℤ) : ℚ) := by norm_num
      rw [show (Option.none : Option ℚ).getD 0 * 100 = ((0 : ℤ) : ℚ) by norm_num]
      exact pyRound_intCast 0
    have hpi : processItem store ⟨pid, Q⟩ = .ok (mkOrderItem ⟨pid, Q⟩ prod, (pid, Q)) :=
      processItem_ok_intro hv hf hin (by rw [hS]; exact hQS) hQ1 (by rw [hzero])
    have hp1 : phase1 store [⟨pid, Q⟩] =
        .ok ([mkOrderItem ⟨pid, Q⟩ prod],
             (mkOrderItem ⟨pid, Q⟩ prod).unit_amount * Q + 0, [(pid, Q)]) := by
      rw [phase1, hpi, phase1]
    have hunit : (mkOrderItem ⟨pid, Q⟩ prod).unit_amount = 0 := hzero
    have hsub : (mkOrderItem ⟨pid, Q⟩ prod).unit_amount * Q + 0 = 0 := by
      rw [hunit]
      ring
    refine ⟨{ products := List.foldl applyStockUpdate store.products [(pid, Q)]
              orders := store.orders ++
                [{ items := [mkOrderItem ⟨pid, Q⟩ prod], currency := "usd"
                   subtotal := (mkOrderItem ⟨pid, Q⟩ prod).unit_amount * Q + 0
                   status := "pending", checkout_session_id := none }] }, ?_, ?_⟩
    · unfold create_checkout
      rw [if_neg (by simp), hp1]
      simp only
      rw [if_neg (by rw [hsub]; omega), hsub]
    · refine ⟨_, rfl, hsub, ?_⟩
      intro oi hoi
      simp only [List.mem_singleton] at hoi
      rw [hoi, hunit]

/-- **C6 (amended).** For carts whose quantities are all ≥ 1 and stores whose
prices are all non-negative (so that the pydantic `ValidationError` → HTTP 500
path cannot fire), checkout fails with `e` exactly when the cart is empty
(`EmptyCart`) or `e` classifies the first failing line: `InvalidIdentifier`
for a malformed id, `ProductNotFound` for a well-formed id with no product,
`InsufficientStock` — carrying the product title — exactly when `in_stock` is
false or `stock_qty < quantity`; the statuses are 400/400/404/400.  (Without
the quantity restriction the taxonomy is not exhaustive: see the
counterexample theorem for the quantity-0 `ValidationError`/500 path.) -/
theorem c6_error_taxonomy {store : Store} {items : List CartItem}
    (hq : ∀ i ∈ items, 1 ≤ i.quantity)
    (hp : ∀ kv ∈ store.products, 0 ≤ kv.2.price.getD 0) :
    (∀ e, (create_checkout store items).1 = .error e ↔
      ((items = [] ∧ e = .emptyCart) ∨
       (items ≠ [] ∧ List.findSome? (classify store) items = some e))) ∧
    httpStatus .emptyCart = 400 ∧
    (∀ s, httpStatus (.invalidId s) = 400) ∧
    (∀ s, httpStatus (.notFound s) = 404) ∧
    (∀ s, httpStatus (.insufficientStock s) = 400) := by
  refine ⟨?_, rfl, fun s => rfl, fun s => rfl, fun s => rfl⟩
  intro e
  by_cases hne : items = []
  · subst hne
    simp [create_checkout, List.findSome?, eq_comm]
  · unfold create_checkout
    rw [if_neg hne]
    cases hp1 : phase1 store items with
    | error e0 =>
      have hiff := (phase1_error_iff hp items hq e).mp
      constructor
      · intro hee
        simp only [Except.error.injEq] at hee
        exact Or.inr ⟨hne, hiff (by rw [hp1, hee])⟩
      · intro hor
        rcases hor with ⟨h1, -⟩ | ⟨-, hfs⟩
        · exact absurd h1 hne
        · have := (phase1_error_iff hp items hq e).mpr hfs
          rw [hp1] at this
          simp only [Except.error.injEq] at this
          simp [this]
    | ok t =>
      obtain ⟨ois, sub, upds⟩ := t
      have hsub : 0 ≤ sub := (phase1_ok_spec hp1).2.2.2.2
      constructor
      · intro hee
        have hsub' : ¬sub < 0 := not_lt.mpr hsub
        simp [hsub'] at hee
      · intro hor
        rcases hor with ⟨h1, -⟩ | ⟨-, hfs⟩
        · exact absurd h1 hne
        · have := (phase1_error_iff hp items hq e).mpr hfs
          rw [hp1] at this
          exact absurd this (by simp)

/-! ## Concrete fixtures and evaluations -/

/-- A well-formed ObjectId string. -/
def wpid : String := "0123456789abcdef01234567"

/-- A fully-populated product document: price 200.00, five in stock. -/
def wprod : ProductDoc :=
  { title := some "Silk Scarf", description := none, price := some 200
    category := none, images := ["https://img.example.com/scarf.jpg"], sku := none
    in_stock := some true, stock_qty := some 5 }

/-- Initial catalog: one product, no orders. -/
def wstore : Store := { products := [(wpid, wprod)], orders := [] }

/-- The order document persisted by a quantity-2 checkout against `wstore`. -/
def worder2 : OrderDoc :=
  { items := [{ product_id := wpid, title := "Silk Scarf", unit_amount := 20000
                quantity := 2, image := some "https://img.example.com/scarf.jpg" }]
    currency := "usd", subtotal := 40000, status := "pending"
    checkout_session_id := none }

/-- State after one quantity-2 checkout against `wstore`. -/
def wstore2 : Store :=
  { products := [(wpid, { wprod with stock_qty := some 3 })], orders := [worder2] }

/-- State after a second quantity-2 checkout. -/
def wstore4 : Store :=
  { products := [(wpid, { wprod with stock_qty := some 1 })]
    orders := [worder2, worder2] }

theorem pyRound_w : pyRound ((200 : ℚ) * 100) = 20000 := by
  rw [show ((200 : ℚ) * 100) = ((20000 : ℤ) : ℚ) by norm_num, pyRound_intCast]

theorem weval2 : create_checkout wstore [⟨wpid, 2⟩] =
    (.ok { order_id := 0, status := "confirmed", subtotal := 40000, currency := "usd" },
     wstore2) := by
  have hv : isValidObjectId wpid = true := by decide
  simp [create_checkout, phase1, processItem, mkOrderItem, applyStockUpdate, findDoc,
    updateFirst, wstore, wstore2, wprod, worder2, hv, pyRound_w]

theorem weval2b : create_checkout wstore2 [⟨wpid, 2⟩] =
    (.ok { order_id := 1, status := "confirmed", subtotal := 40000, currency := "usd" },
     wstore4) := by
  have hv : isValidObjectId wpid = true := by decide
  simp [create_checkout, phase1, processItem, mkOrderItem, applyStockUpdate, findDoc,
    updateFirst, wstore, wstore2, wstore4, wprod, worder2, hv, pyRound_w]

/-- A second well-formed ObjectId string. -/
def xpid : String := "abcabcabcabcabcabcabcabc"

/-- The spec's worked example: price 199.99, five in stock. -/
def xprod : ProductDoc :=
  { title := some "Classic Bag", description := none, price := some (19999 / 100)
    category := none, images := [], sku := none
    in_stock := some true, stock_qty := some 5 }

def xstore : Store := { products := [(xpid, xprod)], orders := [] }

/-- Order item snapshot of the example: unit price 19999 minor units. -/
def xitem : OrderItem :=
  { product_id := xpid, title := "Classic Bag", unit_amount := 19999
    quantity := 5, image := none }

def xorder : OrderDoc :=
  { items := [xitem], currency := "usd", subtotal := 99995, status := "pending"
    checkout_session_id := none }

/-- State after checking out the whole stock of the example product. -/
def xafter : Store :=
  { products := [(xpid, { xprod with stock_qty := some 0, in_stock := some false })]
    orders := [xorder] }

theorem pyRound_x : pyRound ((19999 / 100 : ℚ) * 100) = 19999 := by
  rw [show ((19999 / 100 : ℚ) * 100) = ((19999 : ℤ) : ℚ) by norm_num, pyRound_intCast]

theorem pyRound_x' : pyRound (19999 : ℚ) = 19999 := by
  rw [show (19999 : ℚ) = ((19999 : ℤ) : ℚ) by norm_num, pyRound_intCast]

/-- The spec's example run: quantity 5 at price 199.99 gives unit 19999 and
subtotal 99995; the product ends with stock 0 and `in_stock = false`, while
the stored order still says "pending". -/
theorem xeval : create_checkout xstore [⟨xpid, 5⟩] =
    (.ok { order_id := 0, status := "confirmed", subtotal := 99995, currency := "usd" },
     xafter) := by
  have hv : isValidObjectId xpid = true := by decide
  simp [create_checkout, phase1, processItem, mkOrderItem, applyStockUpdate, findDoc,
    updateFirst, xstore, xafter, xprod, xorder, xitem, hv, pyRound_x, pyRound_x']

/-- A third well-formed ObjectId string. -/
def mpid : String := "ffffffffffffffffffffffff"

/-- Document with `in_stock` absent. -/
def mprodNoFlag : ProductDoc :=
  { title := some "NoFlag", description := none, price := some 10, category := none
    images := [], sku := none, in_stock := none, stock_qty := some 4 }

/-- Document with `stock_qty` absent. -/
def mprodNoQty : ProductDoc :=
  { title := some "NoQty", description := none, price := some 10, category := none
    images := [], sku := none, in_stock := some true, stock_qty := none }

/-- Document with `price` absent. -/
def mprodNoPrice : ProductDoc :=
  { title := some "NoPrice", description := none, price := none, category := none
    images := [], sku := none, in_stock := some true, stock_qty := some 4 }

def mstoreA : Store := { products := [(mpid, mprodNoFlag)], orders := [] }

def mstoreB : Store := { products := [(mpid, mprodNoQty)], orders := [] }

def mstoreC : Store := { products := [(mpid, mprodNoPrice)], orders := [] }

/-- The order item snapshot of one quantity-3 line against `wstore`. -/
def witem3 : OrderItem :=
  { product_id := wpid, title := "Silk Scarf", unit_amount := 20000
    quantity := 3, image := some "https://img.example.com/scarf.jpg" }

/-- The order persisted by the duplicate-line cart `[(wpid,3), (wpid,3)]`. -/
def worderdup : OrderDoc :=
  { items := [witem3, witem3], currency := "usd", subtotal := 120000
    status := "pending", checkout_session_id := none }

/-- The catalog state left by the duplicate-line cart: stock −1. -/
def wstoredup : Store :=
  { products := [(wpid, { wprod with stock_qty := some (-1), in_stock := some false })]
    orders := [worderdup] }

/-- **C3 (failing input).** The spec's invariant `stock_qty ≥ 0` is violated by
the code: a cart that lists the same product twice, each line within the
(stale) stock read at validation time, is accepted and drives the stock to
−1 — each line was checked against the unmodified catalog, and the two
decrements are applied only afterwards. -/
theorem c3_duplicate_cart_stock_negative :
    create_checkout wstore [⟨wpid, 3⟩, ⟨wpid, 3⟩] =
      (.ok { order_id := 0, status := "confirmed", subtotal := 120000, currency := "usd" },
       wstoredup) ∧
    stockOf ((create_checkout wstore [⟨wpid, 3⟩, ⟨wpid, 3⟩]).2).products wpid = -1 := by
  have hv : isValidObjectId wpid = true := by decide
  have heq : create_checkout wstore [⟨wpid, 3⟩, ⟨wpid, 3⟩] =
      (.ok { order_id := 0, status := "confirmed", subtotal := 120000, currency := "usd" },
       wstoredup) := by
    simp [create_checkout, phase1, processItem, mkOrderItem, applyStockUpdate, findDoc,
      updateFirst, wstore, wstoredup, worderdup, witem3, wprod, hv, pyRound_w]
  refine ⟨heq, ?_⟩
  rw [heq]
  simp [stockOf, findDoc, wstoredup, wprod]

/-- **C6 (counterexample).** Checkout can fail outside the four spec error
classes: a cart line with quantity 0 against an in-stock product passes every
explicit validation check and then blows up in the `OrderItem` constructor
(pydantic `quantity ≥ 1`), surfacing as an HTTP 500 `ValidationError` — not
`EmptyCart`/`InvalidIdentifier`/`ProductNotFound`/`InsufficientStock`. -/
theorem c6_error_taxonomy_counterexample :
    create_checkout wstore [⟨wpid, 0⟩] = (.error .validationError, wstore) ∧
    httpStatus .validationError = 500 ∧
    CheckoutErr.validationError ≠ .emptyCart ∧
    (∀ s, CheckoutErr.validationError ≠ .invalidId s) ∧
    (∀ s, CheckoutErr.validationError ≠ .notFound s) ∧
    (∀ s, CheckoutErr.validationError ≠ .insufficientStock s) := by
  have hv : isValidObjectId wpid = true := by decide
  refine ⟨?_, rfl, by simp, fun s => by simp, fun s => by simp, fun s => by simp⟩
  simp [create_checkout, phase1, processItem, mkOrderItem, findDoc, wstore, wprod, hv]

/-! ## Concrete witnesses -/

theorem c1_subtotal_trusted_witness :
    ({ order_id := 0, status := "confirmed", subtotal := 40000, currency := "usd" } :
        CheckoutResp).subtotal =
      (([⟨wpid, 2⟩] : List CartItem).map fun i =>
        pyRound (priceOf wstore.products i.product_id * 100) * i.quantity).sum ∧
    ∃ o : OrderDoc, wstore2.orders = wstore.orders ++ [o] ∧ o.subtotal = 40000 :=
  c1_subtotal_trusted weval2

theorem c2_validation_all_or_nothing_witness :
    ∃ e, create_checkout wstore [⟨wpid, 99⟩] = (.error e, wstore) :=
  c2_validation_all_or_nothing (Or.inr ⟨⟨wpid, 99⟩, by simp,
    Or.inr (Or.inr ⟨wprod, rfl, Or.inr (by decide)⟩)⟩)

theorem c4_quantity_lower_bound_witness :
    ∃ e, create_checkout wstore [⟨wpid, 0⟩] = (.error e, wstore) :=
  c4_quantity_lower_bound ⟨⟨wpid, 0⟩, by simp, by decide⟩

theorem c5_stock_decrement_witness :
    ∃ resp st', create_checkout wstore [⟨wpid, 5⟩] = (.ok resp, st') ∧
      findDoc st'.products wpid =
        some { wprod with stock_qty := some (5 - 5)
                          in_stock := if (5 : ℤ) - 5 = 0 then some false else some true } ∧
      ∀ pid', pid' ≠ wpid → findDoc st'.products pid' = findDoc wstore.products pid' :=
  c5_stock_decrement (by decide) rfl rfl rfl (by decide) (by decide)
    (by norm_num [wprod])

theorem c6_error_taxonomy_witness :
    (∀ e, (create_checkout wstore [⟨wpid, 99⟩]).1 = .error e ↔
      (([⟨wpid, 99⟩] : List CartItem) = [] ∧ e = .emptyCart) ∨
      (([⟨wpid, 99⟩] : List CartItem) ≠ [] ∧
        List.findSome? (classify wstore) [⟨wpid, 99⟩] = some e)) ∧
    httpStatus .emptyCart = 400 ∧
    (∀ s, httpStatus (.invalidId s) = 400) ∧
    (∀ s, httpStatus (.notFound s) = 404) ∧
    (∀ s, httpStatus (.insufficientStock s) = 400) :=
  c6_error_taxonomy (fun i hi => by simp at hi; rw [hi]; decide)
    (fun kv hkv => by
      simp [wstore] at hkv
      rw [hkv]
      norm_num [wprod])

theorem c7_status_drift_witness :
    ({ order_id := 0, status := "confirmed", subtotal := 40000, currency := "usd" } :
        CheckoutResp).status = "confirmed" ∧
    ∃ o : OrderDoc, wstore2.orders = wstore.orders ++ [o] ∧ o.status = "pending" :=
  c7_status_drift weval2

theorem c8_unit_price_rounding_witness :
    xitem.unit_amount = pyRound (priceOf xstore.products xitem.product_id * 100) ∧
    pyRound (((100 : ℤ) : ℚ) + 1 / 2) = if (100 : ℤ) % 2 = 0 then 100 else 100 + 1 :=
  ⟨c8_unit_price_rounding.1 xstore [⟨xpid, 5⟩] _ _ xeval xorder rfl xitem
      (by simp [xorder]),
   c8_unit_price_rounding.2 100⟩

theorem c9_not_idempotent_witness :
    ({ order_id := 0, status := "confirmed", subtotal := 40000, currency := "usd" } :
        CheckoutResp).order_id ≠
      ({ order_id := 1, status := "confirmed", subtotal := 40000, currency := "usd" } :
        CheckoutResp).order_id ∧
    wstore4.orders.length = wstore.orders.length + 2 ∧
    ∀ pid, (∃ i ∈ ([⟨wpid, 2⟩] : List CartItem), i.product_id = pid) →
      stockOf wstore4.products pid =
        stockOf wstore.products pid - 2 * cartQty [⟨wpid, 2⟩] pid :=
  c9_not_idempotent weval2 weval2b

theorem c10_missing_field_defaults_witness :
    (∃ resp st', create_checkout mstoreA [⟨mpid, 2⟩] = (.ok resp, st')) ∧
    create_checkout mstoreB [⟨mpid, 2⟩] =
      (.error (.insufficientStock (mprodNoQty.title.getD "item")), mstoreB) ∧
    ∃ st', create_checkout mstoreC [⟨mpid, 2⟩] =
      (.ok { order_id := mstoreC.orders.length, status := "confirmed"
             subtotal := 0, currency := "usd" }, st') ∧
      ∃ o, st'.orders = mstoreC.orders ++ [o] ∧ o.subtotal = 0 ∧
        ∀ oi ∈ o.items, oi.unit_amount = 0 :=
  ⟨c10_missing_field_defaults.1 mstoreA mpid mprodNoFlag 4 2 (by decide) rfl rfl rfl
      (by decide) (by decide) (by norm_num [mprodNoFlag]),
   c10_missing_field_defaults.2.1 mstoreB mpid mprodNoQty 2 (by decide) rfl rfl (by decide),
   c10_missing_field_defaults.2.2 mstoreC mpid mprodNoPrice 4 2 (by decide) rfl rfl rfl rfl
      (by decide) (by decide)⟩
